import Mathlib

/-!
Shallow embedding of the `DiagnosticRAGGraph` query pipeline
(repository `Langchain-Agentic-RAG`, file `src/unnamed/part_001`).

Modelling conventions:
* Python strings are Lean `String`s; `str.split()` (whitespace tokenization,
  empty pieces dropped) is `pySplit`; `str.lower()` is `pyLower`
  (ASCII case folding over the character list, the common core of Python's
  Unicode lowering; core `String` functions such as `String.toLower` are
  avoided because they do not reduce in the kernel);
  `re.findall(r"\b\w+\b", s)` (maximal runs of word characters) is `wordRuns`,
  with `\w` modelled by its ASCII core `[A-Za-z0-9_]`.
* Python `set(...)` of strings is `Finset String` via `List.toFinset`.
* Python floats produced by `overlap / len(...)` and the literal `0.3` are
  modelled exactly as rationals (`Rat`).
* The external LLM capability (`LLMManager.generate`) is a parameter
  `llm : String → String → Rat → Nat → Except String String`
  (prompt, system, temperature, max_tokens ↦ response content, or a raised
  exception as `.error`).
* The FAISS vector store's `similarity_search` is a parameter
  `search : String → Nat → Except String (List String)`
  (query, k ↦ page contents of the hits, or a raised exception).
* LangGraph messages (`BaseMessage`) are the inductive `Message`; the
  `operator.add` annotation on the `messages` channel means node updates to
  that channel are appended, all other channels are overwritten.
-/

/-- LangChain `BaseMessage`: `human`/`ai` are `HumanMessage`/`AIMessage`;
`other` stands for any further message class (e.g. `SystemMessage`). -/
inductive Message where
  | human (content : String)
  | ai (content : String)
  | other (ty : String) (content : String)
deriving DecidableEq, Repr

/-- `msg.type` in LangChain. -/
def Message.ty : Message → String
  | .human _ => "human"
  | .ai _ => "ai"
  | .other t _ => t

/-- `msg.content`. -/
def Message.content : Message → String
  | .human c => c
  | .ai c => c
  | .other _ c => c

/-- `isinstance(msg, (HumanMessage, AIMessage))`. -/
def Message.isChat : Message → Bool
  | .human _ => true
  | .ai _ => true
  | .other _ _ => false

/-- The `GraphState` TypedDict of the RAG graph. -/
structure GraphState where
  messages : List Message
  original_question : String
  rewritten_question : String
  context : List String
  answer : String
deriving DecidableEq, Repr

/-- Python `str.lower()` (ASCII case folding), character by character over
the string's character list. -/
def pyLower (s : String) : String :=
  String.mk (s.data.map Char.toLower)

/-- Accumulator pass of `splitTokens`: `cur` is the reversed current run of
non-separator characters. -/
def splitRunsAux (sep : Char → Bool) : List Char → List Char → List (List Char)
  | [], cur => if cur = [] then [] else [cur.reverse]
  | c :: cs, cur =>
    if sep c then
      if cur = [] then splitRunsAux sep cs []
      else cur.reverse :: splitRunsAux sep cs []
    else splitRunsAux sep cs (c :: cur)

/-- The maximal non-empty runs of non-separator characters of `s`, in
order. -/
def splitTokens (sep : Char → Bool) (s : String) : List String :=
  (splitRunsAux sep s.data []).map String.mk

/-- Python `str.split()`: split on whitespace runs, dropping empty pieces. -/
def pySplit (s : String) : List String :=
  splitTokens (fun c => c.isWhitespace) s

/-- A word character of `re`'s `\w` (ASCII core). -/
def isWordChar (c : Char) : Bool :=
  c.isAlphanum || c = '_'

/-- `re.findall(r"\b\w+\b", s)`: the maximal runs of word characters. -/
def wordRuns (s : String) : List String :=
  splitTokens (fun c => !isWordChar c) s

/-- Python `str.strip()`: drop leading and trailing whitespace. -/
def pyStrip (s : String) : String :=
  String.mk
    (((s.data.dropWhile Char.isWhitespace).reverse.dropWhile
      Char.isWhitespace).reverse)

namespace DiagnosticRAGGraph

/-- The stop-word set of `_extract_keywords`. -/
def stop_words : List String :=
  ["le", "la", "les", "de", "du", "des", "un", "une", "est", "que", "quel", "quelle"]

/-- `_extract_keywords`: lowercase, tokenize with `\b\w+\b`, drop stop words
and words of length ≤ 2, keep the first 3. -/
def extract_keywords (text : String) : List String :=
  let words := wordRuns (pyLower text)
  let keywords := words.filter fun word => word ∉ stop_words ∧ word.length > 2
  keywords.take 3

/-- `_check_context_relevance`: fraction of the question's distinct lowercased
whitespace-separated words that occur among the context's words; `0.0` when the
question has no words. -/
def check_context_relevance (question context : String) : Rat :=
  let question_words : Finset String := (pySplit (pyLower question)).toFinset
  let context_words : Finset String := (pySplit (pyLower context)).toFinset
  if question_words = ∅ then 0
  else ((question_words ∩ context_words).card : Rat) / (question_words.card : Rat)

/-- The relevance threshold `0.3` of `_generate_answer_node`. -/
def relevance_threshold : Rat := 3 / 10

end DiagnosticRAGGraph

/-- The external LLM capability `LLMManager.generate`:
prompt, system, temperature, max_tokens ↦ response content (`.ok`) or a raised
exception (`.error`). -/
def LLMFn : Type := String → String → Rat → Nat → Except String String

/-- The FAISS vector store's `similarity_search`:
query, k ↦ page contents of the hits (`.ok`) or a raised exception
(`.error`). -/
def SearchFn : Type := String → Nat → Except String (List String)

namespace DiagnosticRAGGraph

/-- `enhanced_similarity_search`: search with the query; on zero hits retry
with a broader query made of the query's first two whitespace tokens; any
exception is caught and yields `[]`. -/
def enhanced_similarity_search (search : SearchFn) (query : String) (k : Nat) :
    List String :=
  match search query k with
  | .error _ => []
  | .ok docs =>
    if docs = [] then
      let broader_query := String.intercalate " " ((pySplit query).take 2)
      match search broader_query k with
      | .error _ => []
      | .ok docs2 => docs2
    else docs

/-- The per-keyword fallback loop at the end of `_retrieve_context_node`:
`for keyword in keywords: context = enhanced_similarity_search(keyword, k=2);
if context: break`. -/
def keyword_search (search : SearchFn) : List String → List String
  | [] => []
  | keyword :: rest =>
    let context := enhanced_similarity_search search keyword 2
    if context = [] then keyword_search search rest else context

/-- `_retrieve_context_node`: rewritten question at `k = 4`, then the original
question at `k = 4`, then up to 3 extracted keywords at `k = 2`. -/
def retrieve_context_node (search : SearchFn) (state : GraphState) :
    List String :=
  let context := enhanced_similarity_search search state.rewritten_question 4
  let context :=
    if context = [] then enhanced_similarity_search search state.original_question 4
    else context
  if context = [] then keyword_search search (extract_keywords state.original_question)
  else context

/-- The `conversation_history` string of `rewrite_question_node`. -/
def conversation_history (messages : List Message) : String :=
  String.intercalate "\n"
    ((messages.filter fun msg => msg.isChat).map fun msg =>
      msg.ty ++ ": " ++ msg.content)

/-- The `rewrite_prompt` f-string of `rewrite_question_node` (12-space
indentation as in the source). -/
def rewrite_prompt (history original_question : String) : String :=
  "\n            Rewrite this question to be more effective for document search.\n            Keep the same language and preserve key terms.\n            \n            Conversation history:\n            " ++
    history ++
    "\n            \n            Original question: " ++ original_question ++
    "\n            \n            Rewritten question (keep it concise):\n            "

/-- The system string of the rewrite LLM call. -/
def rewrite_system : String :=
  "You optimize search queries while preserving meaning and language."

/-- `rewrite_question_node`: ask the LLM for a search-optimized rewrite; on
success return the stripped content, on exception fall back to the original
question. -/
def rewrite_question_node (llm : LLMFn) (state : GraphState) : String :=
  let history := conversation_history state.messages
  let prompt := rewrite_prompt history state.original_question
  match llm prompt rewrite_system (3 / 10) 100 with
  | .ok content => pyStrip content
  | .error _ => state.original_question

/-- The grounded `rag_prompt` f-string (context relevant, 20-space
indentation). -/
def grounded_prompt (context_str original_question : String) : String :=
  "\n                    Based on the following context, answer the user\x27s question in the same language as the question.\n                    If the context doesn\x27t contain enough information, say so clearly.\n                    \n                    Context:\n                    " ++
    context_str ++
    "\n                    \n                    Question: " ++ original_question ++
    "\n                    \n                    Answer:\n                    "

/-- The `rag_prompt` f-string of the irrelevant-context branch (20-space
indentation). -/
def irrelevant_context_prompt (original_question : String) : String :=
  "\n                    The retrieved context does not seem directly relevant to the question.\n                    \n                    Question: " ++
    original_question ++
    "\n                    \n                    Please respond that you don\x27t have enough relevant information to answer this question.\n                    Answer in the same language as the question.\n                    "

/-- The `rag_prompt` f-string of the empty-context branch (16-space
indentation). -/
def no_context_prompt (original_question : String) : String :=
  "\n                No relevant context was found in the knowledge base.\n                \n                Question: " ++
    original_question ++
    "\n                \n                Please respond that you don\x27t have information to answer this question.\n                Answer in the same language as the question.\n                "

/-- Which of the three `rag_prompt` branches `_generate_answer_node` builds. -/
inductive PromptBranch where
  | grounded
  | irrelevantContext
  | noContext
deriving DecidableEq, Repr

/-- The `"\n\n".join(state["context"])` string of `_generate_answer_node`. -/
def context_str (state : GraphState) : String :=
  String.intercalate "\n\n" state.context

/-- The relevance score `_generate_answer_node` computes over the
concatenated context. -/
def gate_relevance_score (state : GraphState) : Rat :=
  check_context_relevance state.original_question (context_str state)

/-- The branch `_generate_answer_node` takes: grounded iff the context is
non-empty and the relevance score exceeds `0.3`. -/
def generate_branch (state : GraphState) : PromptBranch :=
  if state.context ≠ [] then
    if gate_relevance_score state > relevance_threshold then .grounded
    else .irrelevantContext
  else .noContext

/-- The `rag_prompt` string `_generate_answer_node` sends to the LLM. -/
def rag_prompt (state : GraphState) : String :=
  match generate_branch state with
  | .grounded => grounded_prompt (context_str state) state.original_question
  | .irrelevantContext => irrelevant_context_prompt state.original_question
  | .noContext => no_context_prompt state.original_question

/-- The system string of the generate LLM call. -/
def generate_system : String :=
  "You are a helpful assistant that answers based on provided context."

/-- The fixed fallback message of `_generate_answer_node`'s exception
handler. -/
def fallback_msg : String :=
  "Je ne peux pas répondre à cette question en ce moment en raison d\x27un problème technique."

/-- What `_generate_answer_node` returns: the `answer` key and the appended
`messages` update. -/
structure GenerateResult where
  answer : String
  newMessages : List Message
deriving DecidableEq, Repr

/-- `_generate_answer_node`: build the branch's prompt, call the LLM; on
success the content is the answer, on exception the fixed fallback message
is. -/
def generate_answer_node (llm : LLMFn) (state : GraphState) : GenerateResult :=
  match llm (rag_prompt state) generate_system (7 / 10) 300 with
  | .ok content => ⟨content, [.ai content]⟩
  | .error _ => ⟨fallback_msg, [.ai fallback_msg]⟩

/-- The node names of `_build_graph`'s `StateGraph`, plus LangGraph's `END`
sentinel. -/
inductive NodeName where
  | rewrite_question
  | retrieve_context
  | generate_answer
  | END
deriving DecidableEq, Repr

/-- The edges added by `_build_graph`. -/
def graph_edges : List (NodeName × NodeName) :=
  [(.rewrite_question, .retrieve_context),
   (.retrieve_context, .generate_answer),
   (.generate_answer, .END)]

/-- The entry point set by `_build_graph`. -/
def entry_point : NodeName := .rewrite_question

/-- The successor of a node along `graph_edges`. -/
def graph_next (n : NodeName) : Option NodeName :=
  (graph_edges.find? fun e => e.1 = n).map fun e => e.2

/-- The node sequence the compiled graph visits from `n`, fuel-bounded. -/
def graph_run : Nat → NodeName → List NodeName
  | 0, _ => []
  | fuel + 1, n =>
    if n = .END then []
    else
      n :: (match graph_next n with
            | some m => graph_run fuel m
            | none => [])

/-- The nodes one `invoke` of the compiled graph executes, in order. -/
def execution_trace : List NodeName := graph_run 10 entry_point

/-- One node application with LangGraph's channel merge: the `messages`
channel (annotated `operator.add`) is appended to, the others are
overwritten by the node's partial update. -/
def apply_node (llm : LLMFn) (search : SearchFn) (state : GraphState) :
    NodeName → GraphState
  | .rewrite_question =>
    { state with rewritten_question := rewrite_question_node llm state }
  | .retrieve_context =>
    { state with context := retrieve_context_node search state }
  | .generate_answer =>
    let result := generate_answer_node llm state
    { state with
        answer := result.answer
        messages := state.messages ++ result.newMessages }
  | .END => state

/-- The `initial_state` dict built by `chat`. -/
def initial_state (question : String) (history : List Message) : GraphState :=
  { messages := history ++ [.human question]
    original_question := question
    rewritten_question := ""
    context := []
    answer := "" }

/-- `self.graph.invoke(initial_state)`: run the nodes of the execution trace
in order over the initial state. -/
def runPipeline (llm : LLMFn) (search : SearchFn) (question : String)
    (history : List Message) : GraphState :=
  execution_trace.foldl (apply_node llm search) (initial_state question history)

/-- `chat`: invoke the graph and return `final_state["messages"][-1]`. -/
def chat (llm : LLMFn) (search : SearchFn) (question : String)
    (history : List Message) : Option Message :=
  (runPipeline llm search question history).messages.getLast?

/-- The state as it stands when the GENERATE stage runs (after the rewrite
and retrieve nodes). -/
def stateAtGenerate (llm : LLMFn) (search : SearchFn) (question : String)
    (history : List Message) : GraphState :=
  let s0 := initial_state question history
  let s1 := apply_node llm search s0 .rewrite_question
  apply_node llm search s1 .retrieve_context

/-- How many `vector_store.similarity_search` calls one
`enhanced_similarity_search` invocation issues: one, plus one more for the
broader retry taken when the first call returns zero hits. -/
def ess_search_calls (search : SearchFn) (query : String) (k : Nat) : Nat :=
  match search query k with
  | .error _ => 1
  | .ok docs => if docs = [] then 2 else 1

/-- Index search calls issued by the keyword fallback loop. -/
def keyword_search_calls (search : SearchFn) : List String → Nat
  | [] => 0
  | keyword :: rest =>
    let context := enhanced_similarity_search search keyword 2
    ess_search_calls search keyword 2 +
      (if context = [] then keyword_search_calls search rest else 0)

/-- Index search calls issued by one run of `_retrieve_context_node`. -/
def retrieve_search_calls (search : SearchFn) (state : GraphState) : Nat :=
  let context := enhanced_similarity_search search state.rewritten_question 4
  ess_search_calls search state.rewritten_question 4 +
    if context = [] then
      ess_search_calls search state.original_question 4 +
        (if enhanced_similarity_search search state.original_question 4 = [] then
          keyword_search_calls search (extract_keywords state.original_question)
        else 0)
    else 0

end DiagnosticRAGGraph

/-- The persisted index bundle on disk, as far as loading decides anything:
only its stored embedding dimension matters to the load-time checks (the
serialized vectors, the chunk map and the embedding identifier play no role
in the claims). -/
structure StoredIndex where
  dim : Nat
deriving DecidableEq, Repr

/-- The load-time failure taxonomy (`IndexLoadError` of the spec):
`pathMissing` is the `FileNotFoundError` raised at
`_load_vector_store_with_diagnostics` line 46; `dimensionMismatch` is the
incompatible-embedding failure. -/
inductive IndexLoadError where
  | pathMissing (path : String)
  | dimensionMismatch (stored active : Nat)
deriving DecidableEq, Repr

/-- A successfully loaded vector store handle. -/
structure VectorStoreHandle where
  dim : Nat
deriving DecidableEq, Repr

namespace DiagnosticRAGGraph

/-- Modelled from the spec: the vector-store layer's `load` (the
`EnhancedVectorStore` persistence code called through `FAISS.load_local`) is
not among the repository files under `src/`; only its caller appears. Per the
spec it deserializes the bundle and fails fast with `IndexLoadError` when the
stored dimension mismatches the active embedding function's dimension. -/
def load_local (stored : StoredIndex) (active_dim : Nat) :
    Except IndexLoadError VectorStoreHandle :=
  if stored.dim ≠ active_dim then
    .error (.dimensionMismatch stored.dim active_dim)
  else .ok ⟨stored.dim⟩

/-- `_load_vector_store_with_diagnostics`: raise when the path does not
exist (`fs path = none`), otherwise load; every exception is re-raised after
logging. -/
def load_vector_store_with_diagnostics (path : String)
    (fs : String → Option StoredIndex) (active_dim : Nat) :
    Except IndexLoadError VectorStoreHandle :=
  match fs path with
  | none => .error (.pathMissing path)
  | some stored => load_local stored active_dim

/-- A constructed `DiagnosticRAGGraph`: the loaded store and the compiled
graph's node sequence. -/
structure Handle where
  store : VectorStoreHandle
  graph : List NodeName
deriving DecidableEq, Repr

/-- `DiagnosticRAGGraph.__init__`: load the vector store (exceptions
propagate, aborting construction) and build the graph. -/
def init (path : String) (fs : String → Option StoredIndex)
    (active_dim : Nat) : Except IndexLoadError Handle :=
  match load_vector_store_with_diagnostics path fs active_dim with
  | .error e => .error e
  | .ok store => .ok ⟨store, execution_trace⟩

/-- A vector store that returns zero hits for every query (an empty corpus),
raising nothing. -/
def empty_search : SearchFn := fun _ _ => .ok []

/-- An LLM that raises on every call. -/
def failing_llm : LLMFn := fun _ _ _ _ => .error "connection refused"

/-- An LLM that answers rewrite calls with a fixed rewrite and raises on
every other call. -/
def rewrite_only_llm (rewritten : String) : LLMFn :=
  fun _ system _ _ =>
    if system = rewrite_system then .ok rewritten
    else .error "connection refused"

/-- A concrete query state whose rewritten and original questions each hold
three keyword-bearing words. -/
def sample_state : GraphState :=
  { messages := []
    original_question := "alpha beta zeta"
    rewritten_question := "gamma delta epsilon"
    context := []
    answer := "" }

end DiagnosticRAGGraph

namespace DiagnosticRAGGraph

lemma execution_trace_eq :
    execution_trace =
      [.rewrite_question, .retrieve_context, .generate_answer] := rfl

lemma check_context_relevance_eq (q c : String) :
    check_context_relevance q c =
      if (pySplit (pyLower q)).toFinset = ∅ then 0
      else
        (((pySplit (pyLower q)).toFinset ∩ (pySplit (pyLower c)).toFinset).card : Rat) /
          ((pySplit (pyLower q)).toFinset.card : Rat) := rfl

lemma check_context_relevance_nonneg (q c : String) :
    0 ≤ check_context_relevance q c := by
  rw [check_context_relevance_eq]
  split
  · exact le_refl 0
  · positivity

lemma check_context_relevance_le_one (q c : String) :
    check_context_relevance q c ≤ 1 := by
  rw [check_context_relevance_eq]
  split
  · exact zero_le_one
  · rename_i hne
    rw [div_le_one]
    · exact_mod_cast Finset.card_le_card Finset.inter_subset_left
    · exact_mod_cast Finset.card_pos.mpr (Finset.nonempty_iff_ne_empty.mpr hne)

lemma check_context_relevance_of_no_tokens (q c : String)
    (h : pySplit (pyLower q) = []) : check_context_relevance q c = 0 := by
  rw [check_context_relevance_eq, h]
  rfl

lemma generate_branch_eq (state : GraphState) :
    generate_branch state =
      if state.context = [] then .noContext
      else if relevance_threshold < gate_relevance_score state then .grounded
      else .irrelevantContext := by
  unfold generate_branch
  by_cases hc : state.context = []
  · simp [hc]
  · simp [hc, gt_iff_lt]

/-- Claim C1: the GATE stage scores relevance as the fraction of the
question's distinct lowercased whitespace tokens occurring among the
concatenated context's tokens, and the insufficient-context branch is taken
exactly when the context is empty or that score is at most `0.3`. -/
theorem c1_gate_insufficient_iff (state : GraphState) :
    (generate_branch state ≠ .grounded ↔
      state.context = [] ∨
        check_context_relevance state.original_question
          (String.intercalate "\n\n" state.context) ≤ 3 / 10) ∧
    relevance_threshold = 3 / 10 := by
  refine ⟨?_, rfl⟩
  have hscore : check_context_relevance state.original_question
        (String.intercalate "\n\n" state.context) = gate_relevance_score state := rfl
  rw [hscore, generate_branch_eq]
  by_cases hc : state.context = []
  · simp [hc]
  · by_cases hs : relevance_threshold < gate_relevance_score state
    · have h310 : ¬ gate_relevance_score state ≤ 3 / 10 := not_le.mpr hs
      simp [hc, hs, h310]
    · have h310 : gate_relevance_score state ≤ 3 / 10 := not_lt.mp hs
      simp [hc, hs, h310]

/-- Claim C9: the relevance score is total and bounded in `[0, 1]`; a
question with no whitespace tokens scores `0.0`, and such a question never
reaches the grounded branch. -/
theorem c9_relevance_total_guarded :
    (∀ q c : String,
      0 ≤ check_context_relevance q c ∧ check_context_relevance q c ≤ 1 ∧
        (pySplit (pyLower q) = [] → check_context_relevance q c = 0)) ∧
    ∀ state : GraphState, pySplit (pyLower state.original_question) = [] →
      generate_branch state ≠ .grounded := by
  constructor
  · intro q c
    exact ⟨check_context_relevance_nonneg q c, check_context_relevance_le_one q c,
      check_context_relevance_of_no_tokens q c⟩
  · intro state h
    unfold generate_branch
    by_cases hc : state.context = []
    · simp [hc]
    · have hz : gate_relevance_score state = 0 :=
        check_context_relevance_of_no_tokens _ _ h
      have : ¬ gate_relevance_score state > relevance_threshold := by
        rw [hz]
        norm_num [relevance_threshold]
      simp [hc, this]

/-- Claim C9 witness: the guarantees at a concrete empty question and a
concrete state. -/
theorem c9_witness :
    check_context_relevance "" "le congo" = 0 ∧
      generate_branch
        { messages := [], original_question := " ",
          rewritten_question := "r", context := ["le congo"], answer := "" } ≠
        .grounded := by
  refine ⟨((c9_relevance_total_guarded.1 "" "le congo").2.2 (by decide)), ?_⟩
  exact c9_relevance_total_guarded.2 _ (by decide)

/-- Claim C4: on a rewrite-stage LLM exception the node silently falls back
to the original question; on success it returns the stripped response
content. -/
theorem c4_rewrite_silent_fallback (llm : LLMFn) (state : GraphState) :
    (∀ e, llm (rewrite_prompt (conversation_history state.messages)
          state.original_question) rewrite_system (3 / 10) 100 = .error e →
        rewrite_question_node llm state = state.original_question) ∧
    ∀ content, llm (rewrite_prompt (conversation_history state.messages)
        state.original_question) rewrite_system (3 / 10) 100 = .ok content →
      rewrite_question_node llm state = pyStrip content := by
  constructor <;> intro r h <;> simp only [rewrite_question_node] <;> rw [h]

/-- Claim C4 witness: the fallback and the stripped-content case at concrete
inputs. -/
theorem c4_witness :
    rewrite_question_node failing_llm sample_state = "alpha beta zeta" ∧
    rewrite_question_node (fun _ _ _ _ => Except.ok "  Gamma delta  ")
      sample_state = "Gamma delta" := by
  refine ⟨(c4_rewrite_silent_fallback failing_llm sample_state).1
    "connection refused" rfl, ?_⟩
  exact ((c4_rewrite_silent_fallback (fun _ _ _ _ => Except.ok "  Gamma delta  ")
    sample_state).2 "  Gamma delta  " rfl).trans (by decide)

lemma generate_answer_node_newMessages (llm : LLMFn) (state : GraphState) :
    (generate_answer_node llm state).newMessages =
      [.ai (generate_answer_node llm state).answer] := by
  unfold generate_answer_node
  cases llm (rag_prompt state) generate_system (7 / 10) 300 <;> rfl

lemma runPipeline_eq (llm : LLMFn) (search : SearchFn) (question : String)
    (history : List Message) :
    runPipeline llm search question history =
      apply_node llm search (stateAtGenerate llm search question history)
        .generate_answer := rfl

/-- Claim C3: if the GENERATE-stage LLM call raises, the pipeline still
returns, with the fixed fallback message as the answer, and the caller
receives a well-formed final message. -/
theorem c3_generate_fallback (llm : LLMFn) (search : SearchFn)
    (question : String) (history : List Message) :
    ∀ e, llm (rag_prompt (stateAtGenerate llm search question history))
        generate_system (7 / 10) 300 = .error e →
      chat llm search question history = some (.ai fallback_msg) ∧
      (runPipeline llm search question history).answer = fallback_msg := by
  intro e h
  have hgen : generate_answer_node llm (stateAtGenerate llm search question history) =
      ⟨fallback_msg, [.ai fallback_msg]⟩ := by
    unfold generate_answer_node
    rw [h]
  have hrun : runPipeline llm search question history =
      { stateAtGenerate llm search question history with
          answer := fallback_msg
          messages := (stateAtGenerate llm search question history).messages ++
            [.ai fallback_msg] } := by
    rw [runPipeline_eq]
    simp only [apply_node]
    rw [hgen]
  constructor
  · unfold chat
    rw [hrun]
    exact List.getLast?_concat _
  · rw [hrun]

/-- Claim C3 witness: an always-failing LLM over an empty corpus still
produces the fallback answer. -/
theorem c3_witness :
    chat failing_llm empty_search "quelle est la capitale" [] =
      some (.ai fallback_msg) :=
  ((c3_generate_fallback failing_llm empty_search "quelle est la capitale" [])
    "connection refused" rfl).1

lemma keyword_search_eq_find (search : SearchFn) (kws : List String) :
    keyword_search search kws =
      ((kws.map fun kw => enhanced_similarity_search search kw 2).find?
        fun c => !c.isEmpty).getD [] := by
  induction kws with
  | nil => rfl
  | cons kw rest ih =>
    simp only [keyword_search, List.map_cons]
    by_cases h : enhanced_similarity_search search kw 2 = []
    · rw [if_pos h, ih, List.find?_cons_of_neg]
      simp [h]
    · rw [if_neg h, List.find?_cons_of_pos, Option.getD_some]
      simp [h]

/-- Claim C2: the RETRIEVE cascade — rewritten question at `k = 4`, then the
original question at `k = 4`, then the derived keywords (at most 3,
stop-word-filtered lowercased tokens longer than 2 characters, in order of
occurrence) each at the reduced breadth `k = 2` until the first non-empty
result; an empty list, not an error, when everything fails. -/
theorem c2_retrieve_strategy (search : SearchFn) (state : GraphState) :
    (retrieve_context_node search state =
      if enhanced_similarity_search search state.rewritten_question 4 ≠ [] then
        enhanced_similarity_search search state.rewritten_question 4
      else if enhanced_similarity_search search state.original_question 4 ≠ [] then
        enhanced_similarity_search search state.original_question 4
      else
        (((extract_keywords state.original_question).map fun kw =>
          enhanced_similarity_search search kw 2).find? fun c => !c.isEmpty).getD []) ∧
    (extract_keywords state.original_question).length ≤ 3 ∧
    (extract_keywords state.original_question).Sublist
      (wordRuns (pyLower state.original_question)) ∧
    (extract_keywords state.original_question).Forall
      fun kw => kw ∉ stop_words ∧ kw.length > 2 := by
  refine ⟨?_, ?_, ?_, ?_⟩
  · simp only [retrieve_context_node]
    by_cases h1 : enhanced_similarity_search search state.rewritten_question 4 = []
    · by_cases h2 : enhanced_similarity_search search state.original_question 4 = []
      · simp [h1, h2, keyword_search_eq_find]
      · simp [h1, h2]
    · simp [h1]
  · exact List.length_take_le 3 _
  · exact (List.take_sublist 3 _).trans (List.filter_sublist _)
  · rw [List.forall_iff_forall_mem]
    intro kw hkw
    have h2 := List.mem_of_mem_take hkw
    have h3 := List.of_mem_filter h2
    simpa using h3

lemma ess_search_calls_le_two (search : SearchFn) (q : String) (k : Nat) :
    ess_search_calls search q k ≤ 2 := by
  cases h : search q k with
  | error e => simp [ess_search_calls, h]
  | ok docs =>
    simp only [ess_search_calls, h]
    split <;> omega

lemma keyword_search_calls_le (search : SearchFn) (kws : List String) :
    keyword_search_calls search kws ≤ 2 * kws.length := by
  induction kws with
  | nil => simp [keyword_search_calls]
  | cons kw rest ih =>
    have h1 := ess_search_calls_le_two search kw 2
    simp only [keyword_search_calls, List.length_cons]
    split <;> omega

/-- Claim C5 counterexample: with an empty corpus (every search returns zero
hits) and three-word questions, the RETRIEVE stage issues 10 vector-index
search calls while keyword-count + 2 = 5. -/
theorem c5_counterexample :
    retrieve_search_calls empty_search sample_state = 10 ∧
    (extract_keywords sample_state.original_question).length + 2 = 5 ∧
    ¬ (retrieve_search_calls empty_search sample_state ≤
        (extract_keywords sample_state.original_question).length + 2) := by
  refine ⟨by decide, by decide, by decide⟩

/-- Claim C5 as amended: each `enhanced_similarity_search` issues at most two
index searches (the query and one broader retry), so a RETRIEVE run issues at
most `2 * (keyword-count + 2)` vector-index search calls. -/
theorem c5_amended_bound (search : SearchFn) (state : GraphState) :
    retrieve_search_calls search state ≤
      2 * ((extract_keywords state.original_question).length + 2) := by
  have h1 := ess_search_calls_le_two search state.rewritten_question 4
  have h2 := ess_search_calls_le_two search state.original_question 4
  have h3 := keyword_search_calls_le search (extract_keywords state.original_question)
  simp only [retrieve_search_calls]
  split
  · split <;> omega
  · omega

/-- Claim C6 counterexample: two executions that differ in the rewrite
outcome return the same value to the caller, so the returned value does not
carry the rewritten question (nor any trace of the branches taken). -/
theorem c6_counterexample :
    chat (rewrite_only_llm "R1") empty_search "qq" [] =
      chat (rewrite_only_llm "R2") empty_search "qq" [] ∧
    (runPipeline (rewrite_only_llm "R1") empty_search "qq" []).rewritten_question ≠
      (runPipeline (rewrite_only_llm "R2") empty_search "qq" []).rewritten_question := by
  constructor
  · rfl
  · decide

/-- Claim C6 as amended: the value `chat` returns to the caller is the final
AI message, whose content is the `answer` field of the final graph state; the
rewritten question and the context stay inside the discarded state and no
trace log is returned. -/
theorem c6_chat_returns_answer_message (llm : LLMFn) (search : SearchFn)
    (question : String) (history : List Message) :
    chat llm search question history =
      some (.ai (runPipeline llm search question history).answer) := by
  unfold chat
  rw [runPipeline_eq]
  simp only [apply_node]
  rw [generate_answer_node_newMessages]
  exact List.getLast?_concat _

/-- Claim C7: loading fails fast — a missing path raises, and a stored
dimension different from the active embedding function's raises — and in
either case pipeline construction (`__init__`) does not complete. -/
theorem c7_load_fails_fast (path : String) (fs : String → Option StoredIndex)
    (active_dim : Nat) :
    (fs path = none →
      init path fs active_dim = .error (.pathMissing path)) ∧
    ∀ stored, fs path = some stored → stored.dim ≠ active_dim →
      init path fs active_dim =
        .error (.dimensionMismatch stored.dim active_dim) := by
  constructor
  · intro h
    unfold init load_vector_store_with_diagnostics
    rw [h]
  · intro stored h hne
    unfold init load_vector_store_with_diagnostics load_local
    rw [h]
    simp [hne]

/-- Claim C7 witness: a missing path and a 768-vs-384 dimension mismatch
each abort construction. -/
theorem c7_witness :
    init "vector_store_data" (fun _ => none) 384 =
      .error (.pathMissing "vector_store_data") ∧
    init "vector_store_data" (fun _ => some ⟨768⟩) 384 =
      .error (.dimensionMismatch 768 384) :=
  ⟨(c7_load_fails_fast "vector_store_data" (fun _ => none) 384).1 rfl,
    (c7_load_fails_fast "vector_store_data" (fun _ => some ⟨768⟩) 384).2
      ⟨768⟩ rfl (by decide)⟩

/-- Claim C10: the relevance score, the gate decision and the derived
keywords read only the original question and the retrieved context, never the
rewritten question; and once the first search attempt (the only reader of the
rewritten question) fails, the rest of RETRIEVE is also independent of it. -/
theorem c10_gate_reads_only_original (s1 s2 : GraphState)
    (hq : s1.original_question = s2.original_question)
    (hc : s1.context = s2.context) :
    gate_relevance_score s1 = gate_relevance_score s2 ∧
    generate_branch s1 = generate_branch s2 ∧
    extract_keywords s1.original_question = extract_keywords s2.original_question ∧
    ∀ search : SearchFn,
      enhanced_similarity_search search s1.rewritten_question 4 = [] →
      enhanced_similarity_search search s2.rewritten_question 4 = [] →
      retrieve_context_node search s1 = retrieve_context_node search s2 := by
  have hg : gate_relevance_score s1 = gate_relevance_score s2 := by
    unfold gate_relevance_score context_str
    rw [hq, hc]
  refine ⟨hg, ?_, by rw [hq], ?_⟩
  · rw [generate_branch_eq, generate_branch_eq, hc, hg]
  · intro search h1 h2
    simp only [retrieve_context_node, h1, h2, hq]

/-- Claim C10 witness: two states differing only in the rewritten question
agree on the score, the branch and the retrieval result over an empty
corpus. -/
theorem c10_witness :
    gate_relevance_score sample_state =
      gate_relevance_score { sample_state with rewritten_question := "different" } ∧
    retrieve_context_node empty_search sample_state =
      retrieve_context_node empty_search
        { sample_state with rewritten_question := "different" } := by
  have h := c10_gate_reads_only_original sample_state
    { sample_state with rewritten_question := "different" } rfl rfl
  exact ⟨h.1, h.2.2.2 empty_search (by decide) (by decide)⟩

/-- Claim C8: the compiled graph visits REWRITE, RETRIEVE and GENERATE once
each, in that order, then reaches the END sentinel and stops; no node ever
leads back to REWRITE. -/
theorem c8_linear_pipeline :
    execution_trace = [.rewrite_question, .retrieve_context, .generate_answer] ∧
    execution_trace.count NodeName.rewrite_question = 1 ∧
    execution_trace.count NodeName.retrieve_context = 1 ∧
    execution_trace.count NodeName.generate_answer = 1 ∧
    execution_trace.tail.count NodeName.rewrite_question = 0 ∧
    graph_next .generate_answer = some .END ∧
    graph_next .END = none ∧
    (∀ n, graph_next n ≠ some .rewrite_question) := by
  refine ⟨rfl, rfl, rfl, rfl, rfl, rfl, rfl, ?_⟩
  intro n
  cases n <;> decide

end DiagnosticRAGGraph
